import Mathlib

/-!
Verification of the `http-types` Request core (`src/request.rs`).

The Request type owns a method, a URL, a header collection, a type-erased
body reader handle (a boxed `BufRead` trait object), and an optional known
body length. We embed the Rust code shallowly:

* the body handle is a state machine packaged with its state type (the
  Lean counterpart of the boxed trait object `Box<dyn BufRead + Unpin + Send>`);
* `&mut self` methods become functions returning the updated `Request`
  together with their result value;
* machine `usize` values become `Nat` (no arithmetic in this code can
  overflow in a way the claims depend on);
* the header, MIME, method and URL collaborators (`crate::headers`,
  `crate::mime`, `crate::Method`, `crate::Url`) are repository code that is
  not under `src/`; they are modelled from the specification, as flagged by
  their doc comments.
-/

set_option autoImplicit false

namespace HttpTypes

/-- Outcome of a cooperative poll: either a value is ready or the source is
not ready yet (Rust's `Poll`). -/
inductive Poll (α : Type) where
  | ready : α → Poll α
  | pending : Poll α
deriving DecidableEq

/-- An I/O error value (Rust's `io::Error`); only its identity matters to
the claims, so it is a message wrapper. -/
structure IoError where
  msg : String
deriving DecidableEq

/-- Modelled from the spec: a header name of the header collaborator.
`request.rs` constructs one literally as a struct with a `string` field and
a `static_str` field (see `Request::set_mime`), so the shape is taken from
that use site; the collaborator itself is not in `src/`. -/
structure HeaderName where
  string : String
  static_str : Option String
deriving DecidableEq

/-- The name a `HeaderName` stands for: the static string when present,
otherwise the owned string (matching the construction in `set_mime`, where
`string` is empty and `static_str` carries the name). -/
def HeaderName.effective (n : HeaderName) : String :=
  match n.static_str with
  | some s => s
  | none => n.string

/-- Modelled from the spec: the header collaborator keys its map
case-insensitively, so two names are the same key when their effective
names agree up to ASCII case. -/
def keyEq (a b : HeaderName) : Bool :=
  a.effective.toLower == b.effective.toLower

/-- Modelled from the spec: a header value of the header collaborator; an
opaque string wrapper. -/
structure HeaderValue where
  value : String
deriving DecidableEq

/-- Modelled from the spec: the header collaborator's storage, an
ordered-insertion multimap from header name to a sequence of values. -/
abbrev Headers : Type := List (HeaderName × List HeaderValue)

/-- Modelled from the spec: `Headers::new()` is the empty collection. -/
def Headers.new : Headers := []

/-- Modelled from the spec: the collaborator's `get(name)`, a
case-insensitive lookup returning the stored value sequence if present. -/
def Headers.get (h : Headers) (name : HeaderName) : Option (List HeaderValue) :=
  match List.find? (fun p => keyEq p.1 name) h with
  | some p => some p.2
  | none => none

/-- Modelled from the spec: the collaborator's
`insert(name, values) -> Result<Option<previous values>, error>`. It fails
exactly when the collaborator judges some value malformed; that judgment is
not in `src/`, so it is passed in as the parameter `valid`. On success the
entry replaces any existing entry for the same (case-insensitive) key and
the previously held values are returned. On failure the storage is left
unchanged. -/
def Headers.insert (valid : HeaderValue → Bool) (h : Headers) (name : HeaderName)
    (values : List HeaderValue) : Headers × Except IoError (Option (List HeaderValue)) :=
  if values.all valid then
    match h.get name with
    | some prev =>
      (List.map (fun p => if keyEq p.1 name then (p.1, values) else p) h, .ok (some prev))
    | none => (h ++ [(name, values)], .ok none)
  else
    (h, .error ⟨"malformed header value"⟩)

/-- Modelled from the spec: a MIME value of the MIME collaborator; a value
type convertible to a header value. -/
structure Mime where
  repr : String
deriving DecidableEq

/-- The fixed plain-text MIME constant `mime::PLAIN`; its text is the one
documented on `Request::set_body_string`. -/
def Mime.PLAIN : Mime := ⟨"text/plain; charset=utf-8"⟩

/-- The fixed octet-stream MIME constant `mime::BYTE_STREAM`; its text is
the one documented on `Request::set_body_bytes`. -/
def Mime.BYTE_STREAM : Mime := ⟨"application/octet-stream"⟩

/-- Modelled from the spec: the conversion `HeaderValue: From<Mime>` used by
`set_mime` (`let value: HeaderValue = mime.into()`); it renders the MIME
value as a header value. -/
def Mime.toHeaderValue (m : Mime) : HeaderValue := ⟨m.repr⟩

/-- Modelled from the spec: the closed HTTP method enumeration
(`crate::Method`), an out-of-scope collaborator. -/
inductive Method where
  | get | head | post | put | delete | connect | options | trace | patch
deriving DecidableEq

/-- Modelled from the spec: an opaque, already-validated URL value
(`crate::Url`), an out-of-scope collaborator. -/
structure Url where
  repr : String
deriving DecidableEq

/-- The capability of a buffered byte source over a state type `σ`: the
`Read` and `BufRead` operations of the body handle. Each `&mut self`
operation returns its result together with the updated state; a byte is a
`Nat` (value of a `u8`). `pollRead` takes the destination buffer's capacity
and returns the bytes written into it; `pollFillBuf` returns the currently
buffered bytes without consuming them; `consume` advances past `n` already
filled bytes. -/
structure BufReadSpec (σ : Type) where
  pollRead : σ → Nat → Poll (Except IoError (List Nat)) × σ
  pollFillBuf : σ → Poll (Except IoError (List Nat)) × σ
  consume : σ → Nat → σ

/-- The type-erased body handle: the Lean counterpart of
`Box<dyn BufRead + Unpin + Send + 'static>` (`type BodyReader` in
`request.rs`): some state type, its buffered-source operations, and the
current state. -/
structure BodyReader where
  St : Type
  ops : BufReadSpec St
  state : St

/-- Poll the handle to read up to `cap` bytes (Rust `Read::poll_read`
through the box). -/
def BodyReader.pollRead (b : BodyReader) (cap : Nat) :
    Poll (Except IoError (List Nat)) × BodyReader :=
  ((b.ops.pollRead b.state cap).1, ⟨b.St, b.ops, (b.ops.pollRead b.state cap).2⟩)

/-- Poll the handle for its buffered bytes (Rust `BufRead::poll_fill_buf`
through the box). -/
def BodyReader.pollFillBuf (b : BodyReader) :
    Poll (Except IoError (List Nat)) × BodyReader :=
  ((b.ops.pollFillBuf b.state).1, ⟨b.St, b.ops, (b.ops.pollFillBuf b.state).2⟩)

/-- Advance the handle past `amt` buffered bytes (Rust `BufRead::consume`
through the box). -/
def BodyReader.consume (b : BodyReader) (amt : Nat) : BodyReader :=
  ⟨b.St, b.ops, b.ops.consume b.state amt⟩

/-- Drain a body handle by the `BufRead` discipline: fill, stop on an empty
view (end of stream), otherwise consume the whole view and repeat. `fuel`
bounds the number of fill calls, since an arbitrary handle need not
terminate; `some bs` means the handle reached a clean end of stream having
yielded exactly `bs`, `none` means the fuel ran out or the handle reported
pending or an error. -/
def BodyReader.drain : Nat → BodyReader → Option (List Nat)
  | 0, _ => none
  | fuel + 1, b =>
    match b.pollFillBuf with
    | (.ready (.ok chunk), b') =>
      if chunk.isEmpty then some []
      else
        match BodyReader.drain fuel (b'.consume chunk.length) with
        | some rest => some (chunk ++ rest)
        | none => none
    | (.ready (.error _), _) => none
    | (.pending, _) => none

/-- State of `io::Cursor<Vec<u8>>`: the owned bytes and the read position. -/
structure CursorSt where
  bytes : List Nat
  pos : Nat
deriving DecidableEq

/-- The buffered-source operations of `io::Cursor<Vec<u8>>`: reads copy from
the remaining bytes and advance the position; the fill view is everything
from the position on; consume moves the position forward. Always ready,
never errors. -/
def cursorOps : BufReadSpec CursorSt where
  pollRead s cap :=
    (.ready (.ok ((s.bytes.drop s.pos).take cap)),
      ⟨s.bytes, s.pos + ((s.bytes.drop s.pos).take cap).length⟩)
  pollFillBuf s := (.ready (.ok (s.bytes.drop s.pos)), s)
  consume s n := ⟨s.bytes, s.pos + n⟩

/-- A fresh cursor body handle over owned bytes
(`io::Cursor::new(bytes)`). -/
def Cursor.new (bytes : List Nat) : BodyReader := ⟨CursorSt, cursorOps, ⟨bytes, 0⟩⟩

/-- The operations of `io::empty()`: zero-byte reads, an always-empty fill
view, consume is a no-op. Always ready, never errors. -/
def emptyOps : BufReadSpec Unit where
  pollRead s _ := (.ready (.ok []), s)
  pollFillBuf s := (.ready (.ok []), s)
  consume s _ := s

/-- The empty body handle installed by `Request::new`
(`Box::new(io::empty())`). -/
def emptyReader : BodyReader := ⟨Unit, emptyOps, ()⟩

/-- A Rust `String`, represented by its UTF-8 byte content: `String::len`
is the byte length and `String::into_bytes` is the underlying buffer, which
is exactly this list. -/
structure RString where
  bytes : List Nat
deriving DecidableEq

/-- Byte length of the string (`String::len`). -/
def RString.len (s : RString) : Nat := s.bytes.length

/-- The string's UTF-8 buffer (`String::into_bytes`). -/
def RString.into_bytes (s : RString) : List Nat := s.bytes

/-- An HTTP request (`struct Request` in `request.rs`): method, URL,
headers, the pinned boxed body reader, and the optional known length. -/
structure Request where
  method : Method
  url : Url
  headers : Headers
  body_reader : BodyReader
  length : Option Nat

/-- Create a new request (`Request::new`): empty headers, the empty body
handle, `length = Some(0)`. Total, no error path. -/
def Request.new (method : Method) (url : Url) : Request :=
  { method := method
    url := url
    headers := Headers.new
    body_reader := emptyReader
    length := some 0 }

/-- Get the body handle (`Request::body_reader`). -/
def Request.get_body_reader (req : Request) : BodyReader := req.body_reader

/-- Consume the request and keep only the body handle
(`Request::into_body_reader`). -/
def Request.into_body_reader (req : Request) : BodyReader := req.body_reader

/-- Install a body handle (`Request::set_body_reader`): the old handle is
replaced by the new one; nothing else is touched. Total, no error path. -/
def Request.set_body_reader (req : Request) (body : BodyReader) : Request :=
  { req with body_reader := body }

/-- Get a header (`Request::header`): delegate to the collaborator's
lookup. -/
def Request.header (req : Request) (name : HeaderName) : Option (List HeaderValue) :=
  req.headers.get name

/-- Set a header (`Request::set_header`): delegate to the collaborator's
insert, returning its result unchanged (the previous values on success, its
error on failure). `valid` is the collaborator's malformed-value judgment
(see `Headers.insert`). -/
def Request.set_header (valid : HeaderValue → Bool) (req : Request) (name : HeaderName)
    (values : List HeaderValue) : Request × Except IoError (Option (List HeaderValue)) :=
  ({ req with headers := (req.headers.insert valid name values).1 },
    (req.headers.insert valid name values).2)

/-- Set the content type (`Request::set_mime`): build the fixed
`content-type` header name, convert the MIME value to a header value, and
go through `set_header`. -/
def Request.set_mime (valid : HeaderValue → Bool) (req : Request) (mime : Mime) :
    Request × Except IoError (Option (List HeaderValue)) :=
  let header : HeaderName := { string := "", static_str := some "content-type" }
  let value : HeaderValue := mime.toHeaderValue
  req.set_header valid header [value]

/-- The `content-type` header name exactly as `set_mime` constructs it. -/
def contentTypeName : HeaderName := { string := "", static_str := some "content-type" }

/-- Discard the success payload of a header-setting result, keeping an
error unchanged: the effect of `self.set_mime(..)?; Ok(())`. -/
def discardOk (r : Except IoError (Option (List HeaderValue))) : Except IoError Unit :=
  match r with
  | .ok _ => .ok ()
  | .error e => .error e

/-- Set the body from a string (`Request::set_body_string`): record the
byte length, wrap the UTF-8 buffer in a cursor, install it, then set the
plain-text MIME; an error from the header write is returned as is, after
the length and body updates have already happened. -/
def Request.set_body_string (valid : HeaderValue → Bool) (req : Request) (string : RString) :
    Request × Except IoError Unit :=
  let req1 : Request := { req with length := some string.len }
  let reader := Cursor.new string.into_bytes
  let req2 := req1.set_body_reader reader
  ((req2.set_mime valid Mime.PLAIN).1, discardOk (req2.set_mime valid Mime.PLAIN).2)

/-- Set the body from bytes (`Request::set_body_bytes`): copy the input
into an owned buffer (value semantics here), record its length, wrap it in
a cursor, install it, then set the octet-stream MIME; an error from the
header write is returned as is, after the length and body updates have
already happened. -/
def Request.set_body_bytes (valid : HeaderValue → Bool) (req : Request) (bytes : List Nat) :
    Request × Except IoError Unit :=
  let req1 : Request := { req with length := some bytes.length }
  let reader := Cursor.new bytes
  let req2 := req1.set_body_reader reader
  ((req2.set_mime valid Mime.BYTE_STREAM).1, discardOk (req2.set_mime valid Mime.BYTE_STREAM).2)

/-- Get the known body length (`Request::len`). -/
def Request.len (req : Request) : Option Nat := req.length

/-- Override the known body length (`Request::set_len`): builder-style,
sets `length = Some(len)` unconditionally. -/
def Request.set_len (req : Request) (len : Nat) : Request :=
  { req with length := some len }

/-- `Read::poll_read` on the request: forwarded verbatim to the installed
body handle. -/
def Request.poll_read (req : Request) (cap : Nat) :
    Poll (Except IoError (List Nat)) × Request :=
  ((req.body_reader.pollRead cap).1,
    { req with body_reader := (req.body_reader.pollRead cap).2 })

/-- `BufRead::poll_fill_buf` on the request: forwarded verbatim to the
installed body handle. -/
def Request.poll_fill_buf (req : Request) :
    Poll (Except IoError (List Nat)) × Request :=
  ((req.body_reader.pollFillBuf).1,
    { req with body_reader := (req.body_reader.pollFillBuf).2 })

/-- `BufRead::consume` on the request: forwarded verbatim to the installed
body handle. -/
def Request.consume (req : Request) (amt : Nat) : Request :=
  { req with body_reader := req.body_reader.consume amt }

/-- Drain the request through its own stream operations (fill, stop on an
empty view, else consume the view and repeat), with the same fuel
convention as `BodyReader.drain`. -/
def Request.drain : Nat → Request → Option (List Nat)
  | 0, _ => none
  | fuel + 1, req =>
    match req.poll_fill_buf with
    | (.ready (.ok chunk), req') =>
      if chunk.isEmpty then some []
      else
        match Request.drain fuel (req'.consume chunk.length) with
        | some rest => some (chunk ++ rest)
        | none => none
    | (.ready (.error _), _) => none
    | (.pending, _) => none

/-! ### Helper lemmas -/

theorem keyEq_refl (n : HeaderName) : keyEq n n = true := by
  simp [keyEq]

theorem Headers.get_nil (name : HeaderName) : Headers.get [] name = none := rfl

theorem Headers.get_cons (p : HeaderName × List HeaderValue) (t : Headers)
    (name : HeaderName) :
    Headers.get (p :: t) name = if keyEq p.1 name then some p.2 else t.get name := by
  unfold Headers.get
  rw [List.find?]
  cases hk : keyEq p.1 name <;> simp [hk]

theorem Headers.get_append_single (h : Headers) (name : HeaderName)
    (vs : List HeaderValue) (hn : h.get name = none) :
    Headers.get (h ++ [(name, vs)]) name = some vs := by
  induction h with
  | nil => simp [Headers.get_cons, keyEq_refl]
  | cons p t ih =>
    rw [Headers.get_cons] at hn
    cases hk : keyEq p.1 name with
    | true => simp [hk] at hn
    | false =>
      simp only [hk] at hn
      simp only [List.cons_append, Headers.get_cons, hk, if_false]
      exact ih (by simpa using hn)

theorem Headers.get_map_replace (name : HeaderName) (vs : List HeaderValue) :
    ∀ (h : Headers) (prev : List HeaderValue), h.get name = some prev →
      Headers.get (List.map (fun p => if keyEq p.1 name then (p.1, vs) else p) h) name
        = some vs := by
  intro h
  induction h with
  | nil => intro prev hp; simp [Headers.get_nil] at hp
  | cons p t ih =>
    intro prev hp
    rw [Headers.get_cons] at hp
    cases hk : keyEq p.1 name with
    | true =>
      simp only [List.map_cons, hk, if_true, Headers.get_cons]
    | false =>
      simp only [hk] at hp
      simp [List.map_cons, Headers.get_cons, hk]
      exact ih prev (by simpa using hp)

theorem Headers.insert_snd (valid : HeaderValue → Bool) (h : Headers)
    (name : HeaderName) (vs : List HeaderValue) (hv : vs.all valid = true) :
    (Headers.insert valid h name vs).2 = .ok (h.get name) := by
  unfold Headers.insert
  simp only [hv, if_true]
  cases hg : h.get name <;> simp [hg]

theorem Headers.insert_fst_get (valid : HeaderValue → Bool) (h : Headers)
    (name : HeaderName) (vs : List HeaderValue) (hv : vs.all valid = true) :
    ((Headers.insert valid h name vs).1).get name = some vs := by
  unfold Headers.insert
  simp only [hv, if_true]
  cases hg : h.get name with
  | some prev =>
    simp only [hg]
    exact Headers.get_map_replace name vs h prev hg
  | none =>
    simp only [hg]
    exact Headers.get_append_single h name vs hg

theorem Headers.insert_err (valid : HeaderValue → Bool) (h : Headers)
    (name : HeaderName) (vs : List HeaderValue) (hv : vs.all valid = false) :
    Headers.insert valid h name vs = (h, .error ⟨"malformed header value"⟩) := by
  unfold Headers.insert
  simp [hv]

theorem request_drain_eq : ∀ (fuel : Nat) (req : Request),
    Request.drain fuel req = req.body_reader.drain fuel := by
  intro fuel
  induction fuel with
  | zero => intro req; rfl
  | succ n ih =>
    intro req
    simp only [Request.drain, BodyReader.drain, Request.poll_fill_buf,
      BodyReader.pollFillBuf]
    cases hr : (req.body_reader.ops.pollFillBuf req.body_reader.state).1 with
    | pending => rfl
    | ready x =>
      cases x with
      | error e => rfl
      | ok chunk =>
        by_cases hc : chunk.isEmpty
        · simp [hc]
        · simp only [hc, if_false, Bool.false_eq_true]
          rw [ih]
          rfl

theorem cursor_drain (bs : List Nat) : (Cursor.new bs).drain 2 = some bs := by
  cases bs with
  | nil => rfl
  | cons a t =>
    simp only [BodyReader.drain, Cursor.new, cursorOps, BodyReader.pollFillBuf,
      BodyReader.consume, List.drop_zero]
    simp [List.drop_length, Nat.zero_add]

/-! ### Claim theorems -/

/-- C3: for every method and url, `Request::new` succeeds (it is a total
function with no error result) and returns a request whose `len()` is
`Some(0)`, whose header collection is empty, and whose body stream
immediately reports an empty fill view (end of stream) and drains to zero
bytes. -/
theorem new_spec (m : Method) (u : Url) :
    (Request.new m u).len = some 0 ∧
    (Request.new m u).headers = Headers.new ∧
    (Request.poll_fill_buf (Request.new m u)).1 = .ready (.ok []) ∧
    Request.drain 1 (Request.new m u) = some [] :=
  ⟨rfl, rfl, rfl, rfl⟩

/-- C1: after a successful `set_body_string(s)`, `len()` is the byte length
of `s`, draining the body stream yields exactly the UTF-8 bytes of `s` and
then end of stream, and the `content-type` header holds exactly the fixed
plain-text MIME value. -/
theorem set_body_string_spec (valid : HeaderValue → Bool) (req : Request) (s : RString)
    (hok : (Request.set_body_string valid req s).2 = .ok ()) :
    (Request.set_body_string valid req s).1.len = some s.bytes.length ∧
    Request.drain 2 (Request.set_body_string valid req s).1 = some s.bytes ∧
    (Request.set_body_string valid req s).1.header contentTypeName
      = some [Mime.PLAIN.toHeaderValue] := by
  have hv : valid Mime.PLAIN.toHeaderValue = true := by
    cases hvv : valid Mime.PLAIN.toHeaderValue with
    | true => rfl
    | false =>
      exfalso
      have hins := Headers.insert_err valid req.headers contentTypeName
        [Mime.PLAIN.toHeaderValue] (by simp [hvv])
      have h2 : (Request.set_body_string valid req s).2
          = discardOk (req.headers.insert valid contentTypeName
              [Mime.PLAIN.toHeaderValue]).2 := rfl
      rw [hok, hins] at h2
      simp [discardOk] at h2
  refine ⟨rfl, ?_, ?_⟩
  · rw [request_drain_eq]
    exact cursor_drain s.bytes
  · show ((req.headers.insert valid contentTypeName [Mime.PLAIN.toHeaderValue]).1).get
        contentTypeName = some [Mime.PLAIN.toHeaderValue]
    exact Headers.insert_fst_get valid req.headers contentTypeName
      [Mime.PLAIN.toHeaderValue] (by simp [hv])

/-- Witness for C1 at the spec's concrete scenario: `set_body_string` of
the five bytes of "hello" on a fresh GET request succeeds, the length
reads `Some(5)`, draining yields the five bytes, and `content-type` holds
the plain-text MIME value. -/
theorem set_body_string_spec_witness :
    (Request.set_body_string (fun _ => true)
        (Request.new Method.get ⟨"https://example.test/"⟩)
        ⟨[104, 101, 108, 108, 111]⟩).2 = .ok () ∧
    ((Request.set_body_string (fun _ => true)
        (Request.new Method.get ⟨"https://example.test/"⟩)
        ⟨[104, 101, 108, 108, 111]⟩).1.len = some 5 ∧
      Request.drain 2 (Request.set_body_string (fun _ => true)
        (Request.new Method.get ⟨"https://example.test/"⟩)
        ⟨[104, 101, 108, 108, 111]⟩).1 = some [104, 101, 108, 108, 111] ∧
      (Request.set_body_string (fun _ => true)
        (Request.new Method.get ⟨"https://example.test/"⟩)
        ⟨[104, 101, 108, 108, 111]⟩).1.header contentTypeName
        = some [Mime.PLAIN.toHeaderValue]) :=
  ⟨rfl, set_body_string_spec (fun _ => true)
    (Request.new Method.get ⟨"https://example.test/"⟩)
    ⟨[104, 101, 108, 108, 111]⟩ rfl⟩

/-- C2: after a successful `set_body_bytes(b)`, `len()` is `Some(b.len())`,
draining the body stream yields exactly `b` and then end of stream, the
`content-type` header holds exactly the fixed octet-stream MIME value, and
the installed body is a cursor over an owned copy of the input (value
semantics of the embedding render the copy; the Rust code materialises it
with `to_owned`). -/
theorem set_body_bytes_spec (valid : HeaderValue → Bool) (req : Request) (b : List Nat)
    (hok : (Request.set_body_bytes valid req b).2 = .ok ()) :
    (Request.set_body_bytes valid req b).1.len = some b.length ∧
    Request.drain 2 (Request.set_body_bytes valid req b).1 = some b ∧
    (Request.set_body_bytes valid req b).1.header contentTypeName
      = some [Mime.BYTE_STREAM.toHeaderValue] ∧
    (Request.set_body_bytes valid req b).1.body_reader = Cursor.new b := by
  have hv : valid Mime.BYTE_STREAM.toHeaderValue = true := by
    cases hvv : valid Mime.BYTE_STREAM.toHeaderValue with
    | true => rfl
    | false =>
      exfalso
      have hins := Headers.insert_err valid req.headers contentTypeName
        [Mime.BYTE_STREAM.toHeaderValue] (by simp [hvv])
      have h2 : (Request.set_body_bytes valid req b).2
          = discardOk (req.headers.insert valid contentTypeName
              [Mime.BYTE_STREAM.toHeaderValue]).2 := rfl
      rw [hok, hins] at h2
      simp [discardOk] at h2
  refine ⟨rfl, ?_, ?_, rfl⟩
  · rw [request_drain_eq]
    exact cursor_drain b
  · show ((req.headers.insert valid contentTypeName [Mime.BYTE_STREAM.toHeaderValue]).1).get
        contentTypeName = some [Mime.BYTE_STREAM.toHeaderValue]
    exact Headers.insert_fst_get valid req.headers contentTypeName
      [Mime.BYTE_STREAM.toHeaderValue] (by simp [hv])

/-- Witness for C2: `set_body_bytes` of `[1, 2, 3]` on a fresh GET request
succeeds, the length reads `Some(3)`, draining yields the three bytes,
`content-type` holds the octet-stream MIME value, and the installed body
is a cursor over those bytes. -/
theorem set_body_bytes_spec_witness :
    (Request.set_body_bytes (fun _ => true)
        (Request.new Method.get ⟨"https://example.test/"⟩) [1, 2, 3]).2 = .ok () ∧
    ((Request.set_body_bytes (fun _ => true)
        (Request.new Method.get ⟨"https://example.test/"⟩) [1, 2, 3]).1.len = some 3 ∧
      Request.drain 2 (Request.set_body_bytes (fun _ => true)
        (Request.new Method.get ⟨"https://example.test/"⟩) [1, 2, 3]).1 = some [1, 2, 3] ∧
      (Request.set_body_bytes (fun _ => true)
        (Request.new Method.get ⟨"https://example.test/"⟩) [1, 2, 3]).1.header contentTypeName
        = some [Mime.BYTE_STREAM.toHeaderValue] ∧
      (Request.set_body_bytes (fun _ => true)
        (Request.new Method.get ⟨"https://example.test/"⟩) [1, 2, 3]).1.body_reader
        = Cursor.new [1, 2, 3]) :=
  ⟨rfl, set_body_bytes_spec (fun _ => true)
    (Request.new Method.get ⟨"https://example.test/"⟩) [1, 2, 3] rfl⟩

/-- C4: a second body installation (by any of `set_body_string`,
`set_body_bytes` or `set_body_reader`) fully replaces whatever handle the
request held before: draining afterwards yields exactly the second body's
bytes, with no residue of the first (the quantified `req` stands for the
request after an arbitrary first installation). -/
theorem body_replacement (valid : HeaderValue → Bool) (req : Request) (s : RString)
    (b : List Nat) (h : BodyReader) (fuel : Nat) :
    Request.drain 2 (Request.set_body_string valid req s).1 = some s.bytes ∧
    Request.drain 2 (Request.set_body_bytes valid req b).1 = some b ∧
    (req.set_body_reader h).body_reader = h ∧
    Request.drain fuel (req.set_body_reader h) = h.drain fuel := by
  refine ⟨?_, ?_, rfl, ?_⟩
  · rw [request_drain_eq]
    exact cursor_drain s.bytes
  · rw [request_drain_eq]
    exact cursor_drain b
  · rw [request_drain_eq]
    rfl

/-- C5: the request's stream operations are verbatim delegation to the
installed body handle: `poll_read`, `poll_fill_buf` and `consume` return
exactly the handle's result (ready values, pending and errors alike), the
request's body becomes the handle's updated state, and method, url,
headers and length are untouched — the request adds no buffering or
transformation of its own. -/
theorem stream_delegation (req : Request) (cap amt : Nat) :
    (req.poll_read cap).1 = (req.body_reader.pollRead cap).1 ∧
    (req.poll_read cap).2.body_reader = (req.body_reader.pollRead cap).2 ∧
    (req.poll_read cap).2.method = req.method ∧
    (req.poll_read cap).2.url = req.url ∧
    (req.poll_read cap).2.headers = req.headers ∧
    (req.poll_read cap).2.length = req.length ∧
    (Request.poll_fill_buf req).1 = (req.body_reader.pollFillBuf).1 ∧
    (Request.poll_fill_buf req).2.body_reader = (req.body_reader.pollFillBuf).2 ∧
    (Request.poll_fill_buf req).2.method = req.method ∧
    (Request.poll_fill_buf req).2.url = req.url ∧
    (Request.poll_fill_buf req).2.headers = req.headers ∧
    (Request.poll_fill_buf req).2.length = req.length ∧
    (req.consume amt).body_reader = req.body_reader.consume amt ∧
    (req.consume amt).method = req.method ∧
    (req.consume amt).url = req.url ∧
    (req.consume amt).headers = req.headers ∧
    (req.consume amt).length = req.length :=
  ⟨rfl, rfl, rfl, rfl, rfl, rfl, rfl, rfl, rfl, rfl, rfl, rfl, rfl, rfl, rfl, rfl, rfl⟩

/-- C6: `set_body_reader(h)` leaves the length field exactly as it was (it
never reads or writes it) and also leaves method, url and headers
unchanged; only the body handle is replaced, and it becomes `h`. -/
theorem set_body_reader_frame (req : Request) (h : BodyReader) :
    (req.set_body_reader h).length = req.length ∧
    (req.set_body_reader h).method = req.method ∧
    (req.set_body_reader h).url = req.url ∧
    (req.set_body_reader h).headers = req.headers ∧
    (req.set_body_reader h).body_reader = h :=
  ⟨rfl, rfl, rfl, rfl, rfl⟩

/-- C7: `set_len(n)` sets the length to `Some(n)` unconditionally,
independent of the body handle, and leaves method, url, headers and the
body handle unchanged; in particular `set_len(42)` on a fresh request with
an empty body makes `len()` report `Some(42)` while draining still yields
zero bytes. -/
theorem set_len_spec (req : Request) (n : Nat) (m : Method) (u : Url) :
    (req.set_len n).len = some n ∧
    (req.set_len n).method = req.method ∧
    (req.set_len n).url = req.url ∧
    (req.set_len n).headers = req.headers ∧
    (req.set_len n).body_reader = req.body_reader ∧
    ((Request.new m u).set_len 42).len = some 42 ∧
    Request.drain 1 ((Request.new m u).set_len 42) = some [] :=
  ⟨rfl, rfl, rfl, rfl, rfl, rfl, rfl⟩

/-- C8: `set_body_string`, `set_body_bytes` and `set_mime` return exactly
what the header collaborator's insert returns for the `content-type` write
(the error unchanged on failure, success otherwise), and `set_header` is
the insert result itself; construction, metadata access and
`set_body_reader` are total functions of the embedding whose result types
carry no error at all, mirroring their Rust signatures. -/
theorem error_paths (valid : HeaderValue → Bool) (req : Request) (s : RString)
    (b : List Nat) (m : Mime) (name : HeaderName) (vs : List HeaderValue) :
    (Request.set_body_string valid req s).2
      = discardOk (req.headers.insert valid contentTypeName [Mime.PLAIN.toHeaderValue]).2 ∧
    (Request.set_body_bytes valid req b).2
      = discardOk (req.headers.insert valid contentTypeName
          [Mime.BYTE_STREAM.toHeaderValue]).2 ∧
    (Request.set_mime valid req m).2
      = (req.headers.insert valid contentTypeName [m.toHeaderValue]).2 ∧
    (Request.set_header valid req name vs).2 = (req.headers.insert valid name vs).2 :=
  ⟨rfl, rfl, rfl, rfl⟩

/-- C9: header round-trip: after a successful `set_header(name, v)`,
`header(name)` returns `Some(v)`; a subsequent successful
`set_header(name, v2)` returns `Some(v)` as the previously held values,
after which `header(name)` returns `Some(v2)`. -/
theorem header_round_trip (valid : HeaderValue → Bool) (req : Request)
    (name : HeaderName) (v v2 : List HeaderValue)
    (h1 : v.all valid = true) (h2 : v2.all valid = true) :
    (Request.set_header valid req name v).1.header name = some v ∧
    (Request.set_header valid (Request.set_header valid req name v).1 name v2).2
      = .ok (some v) ∧
    (Request.set_header valid (Request.set_header valid req name v).1 name v2).1.header
      name = some v2 := by
  refine ⟨?_, ?_, ?_⟩
  · exact Headers.insert_fst_get valid req.headers name v h1
  · show (Headers.insert valid ((Headers.insert valid req.headers name v).1) name v2).2
      = .ok (some v)
    rw [Headers.insert_snd valid _ name v2 h2,
      Headers.insert_fst_get valid req.headers name v h1]
  · exact Headers.insert_fst_get valid _ name v2 h2

/-- Witness for C9: on a fresh request, setting header "x" to value "a"
then to value "b" round-trips as the claim states. -/
theorem header_round_trip_witness :
    ([⟨"a"⟩] : List HeaderValue).all (fun _ => true) = true ∧
    ([⟨"b"⟩] : List HeaderValue).all (fun _ => true) = true ∧
    ((Request.set_header (fun _ => true) (Request.new Method.get ⟨"u"⟩)
        ⟨"x", none⟩ [⟨"a"⟩]).1.header ⟨"x", none⟩ = some [⟨"a"⟩] ∧
      (Request.set_header (fun _ => true)
        (Request.set_header (fun _ => true) (Request.new Method.get ⟨"u"⟩)
          ⟨"x", none⟩ [⟨"a"⟩]).1 ⟨"x", none⟩ [⟨"b"⟩]).2 = .ok (some [⟨"a"⟩]) ∧
      (Request.set_header (fun _ => true)
        (Request.set_header (fun _ => true) (Request.new Method.get ⟨"u"⟩)
          ⟨"x", none⟩ [⟨"a"⟩]).1 ⟨"x", none⟩ [⟨"b"⟩]).1.header ⟨"x", none⟩
        = some [⟨"b"⟩]) :=
  ⟨rfl, rfl, header_round_trip (fun _ => true) (Request.new Method.get ⟨"u"⟩)
    ⟨"x", none⟩ [⟨"a"⟩] [⟨"b"⟩] rfl rfl⟩

/-- C10: `set_body_string` and `set_body_bytes` are not atomic on error:
they update the length and install the new body before the `content-type`
write, so whenever the header collaborator's insert fails, the call
returns an error while the length already equals the input's byte length
and draining already yields the new input's bytes. -/
theorem set_body_not_atomic (valid : HeaderValue → Bool) (req : Request) (s : RString)
    (b : List Nat) (hp : valid Mime.PLAIN.toHeaderValue = false)
    (hb : valid Mime.BYTE_STREAM.toHeaderValue = false) :
    (∃ e, (Request.set_body_string valid req s).2 = .error e) ∧
    (Request.set_body_string valid req s).1.len = some s.bytes.length ∧
    Request.drain 2 (Request.set_body_string valid req s).1 = some s.bytes ∧
    (∃ e, (Request.set_body_bytes valid req b).2 = .error e) ∧
    (Request.set_body_bytes valid req b).1.len = some b.length ∧
    Request.drain 2 (Request.set_body_bytes valid req b).1 = some b := by
  have hins1 := Headers.insert_err valid req.headers contentTypeName
    [Mime.PLAIN.toHeaderValue] (by simp [hp])
  have hins2 := Headers.insert_err valid req.headers contentTypeName
    [Mime.BYTE_STREAM.toHeaderValue] (by simp [hb])
  refine ⟨⟨⟨"malformed header value"⟩, ?_⟩, rfl, ?_,
    ⟨⟨"malformed header value"⟩, ?_⟩, rfl, ?_⟩
  · show discardOk (req.headers.insert valid contentTypeName
      [Mime.PLAIN.toHeaderValue]).2 = _
    rw [hins1]
    rfl
  · rw [request_drain_eq]
    exact cursor_drain s.bytes
  · show discardOk (req.headers.insert valid contentTypeName
      [Mime.BYTE_STREAM.toHeaderValue]).2 = _
    rw [hins2]
    rfl
  · rw [request_drain_eq]
    exact cursor_drain b

/-- Witness for C10: with a collaborator that rejects every value, setting
a string body of two bytes and a byte body of one byte both error out
while the length and the drained bytes already reflect the new input. -/
theorem set_body_not_atomic_witness :
    ((fun _ : HeaderValue => false) Mime.PLAIN.toHeaderValue = false) ∧
    ((fun _ : HeaderValue => false) Mime.BYTE_STREAM.toHeaderValue = false) ∧
    ((∃ e, (Request.set_body_string (fun _ => false)
        (Request.new Method.get ⟨"u"⟩) ⟨[1, 2]⟩).2 = .error e) ∧
      (Request.set_body_string (fun _ => false)
        (Request.new Method.get ⟨"u"⟩) ⟨[1, 2]⟩).1.len = some 2 ∧
      Request.drain 2 (Request.set_body_string (fun _ => false)
        (Request.new Method.get ⟨"u"⟩) ⟨[1, 2]⟩).1 = some [1, 2] ∧
      (∃ e, (Request.set_body_bytes (fun _ => false)
        (Request.new Method.get ⟨"u"⟩) [3]).2 = .error e) ∧
      (Request.set_body_bytes (fun _ => false)
        (Request.new Method.get ⟨"u"⟩) [3]).1.len = some 1 ∧
      Request.drain 2 (Request.set_body_bytes (fun _ => false)
        (Request.new Method.get ⟨"u"⟩) [3]).1 = some [3]) :=
  ⟨rfl, rfl, set_body_not_atomic (fun _ => false) (Request.new Method.get ⟨"u"⟩)
    ⟨[1, 2]⟩ [3] rfl rfl⟩

end HttpTypes
